import Mathlib

/-!
Shallow embedding of `chain/network-primitives/src/blacklist.rs` (nearcore),
together with the fragment of Rust's `core::net::parser` that
`PatternAddr::from_str` relies on (`IpAddr::from_str`, `SocketAddr::from_str`).

Addresses are modelled with plain `Nat` components: an `Ipv4Addr` is four
octets, an `Ipv6Addr` is eight 16-bit segments.  The parser enforces the
numeric bounds exactly where Rust's checked arithmetic does, so no wrapping
arithmetic is needed.  `HashMap`/`HashSet` are modelled as association lists /
lists with insert-if-absent, which preserves the observable behaviour
(`get`/`contains` membership semantics).
-/

set_option autoImplicit false

namespace Blacklist

/-- Rust `std::net::Ipv4Addr`: four octets (each in `0..256`). -/
structure Ipv4Addr where
  a : Nat
  b : Nat
  c : Nat
  d : Nat
deriving DecidableEq, Repr

/-- Rust `std::net::Ipv6Addr`: eight 16-bit segments (each in `0..65536`). -/
structure Ipv6Addr where
  s0 : Nat
  s1 : Nat
  s2 : Nat
  s3 : Nat
  s4 : Nat
  s5 : Nat
  s6 : Nat
  s7 : Nat
deriving DecidableEq, Repr

/-- Rust `std::net::IpAddr`. -/
inductive IpAddr where
  | V4 (ip : Ipv4Addr)
  | V6 (ip : Ipv6Addr)
deriving DecidableEq, Repr

/-- Rust `Ipv4Addr::to_ipv6_mapped`: `a.b.c.d` becomes `::ffff:a.b.c.d`. -/
def Ipv4Addr.to_ipv6_mapped (ip : Ipv4Addr) : Ipv6Addr :=
  ⟨0, 0, 0, 0, 0, 0xffff, ip.a * 256 + ip.b, ip.c * 256 + ip.d⟩

/-- Rust `std::net::SocketAddrV4`: an IPv4 address and a port. -/
structure SocketAddrV4 where
  ip : Ipv4Addr
  port : Nat
deriving DecidableEq, Repr

/-- Rust `std::net::SocketAddrV6`: address, port, flowinfo and scope_id,
in the field order of `SocketAddrV6::new`. -/
structure SocketAddrV6 where
  ip : Ipv6Addr
  port : Nat
  flowinfo : Nat
  scope_id : Nat
deriving DecidableEq, Repr

/-- Rust `std::net::SocketAddr`. -/
inductive SocketAddr where
  | V4 (addr : SocketAddrV4)
  | V6 (addr : SocketAddrV6)
deriving DecidableEq, Repr

/-- Rust `SocketAddr::ip` (as an `IpAddr`). -/
def SocketAddr.ip : SocketAddr → IpAddr
  | .V4 sa => IpAddr.V4 sa.ip
  | .V6 sa => IpAddr.V6 sa.ip

/-- Rust `SocketAddr::port`. -/
def SocketAddr.port : SocketAddr → Nat
  | .V4 sa => sa.port
  | .V6 sa => sa.port

/-!
## The relevant fragment of Rust `core::net::parser`

Parsers are functions `List Char → Option (α × List Char)`; returning `none`
corresponds to a failed `read_atomically` (the caller keeps its old input, which
in this pure style is automatic).
-/

/-- Rust `Parser::read_given_char`. -/
def readGivenChar (c : Char) : List Char → Option (Unit × List Char)
  | [] => none
  | x :: rest => if x = c then some ((), rest) else none

/-- Rust `char::to_digit(radix)` for the radices used by the address parser. -/
def charToDigit (radix : Nat) (c : Char) : Option Nat :=
  let n := c.toNat
  let v : Option Nat :=
    if 48 ≤ n ∧ n ≤ 57 then some (n - 48)
    else if 97 ≤ n ∧ n ≤ 102 then some (n - 97 + 10)
    else if 65 ≤ n ∧ n ≤ 70 then some (n - 65 + 10)
    else none
  match v with
  | some d => if d < radix then some d else none
  | none => none

/-- The digit-consuming loop of Rust `Parser::read_number`: `maxVal` is the
largest value of the target integer type (checked arithmetic fails past it),
`maxDigits` the optional digit limit.  Returns the accumulated value, the
number of digits consumed and the rest of the input. -/
def readDigits (radix maxVal : Nat) (maxDigits : Option Nat) :
    List Char → Nat → Nat → Option (Nat × Nat × List Char)
  | [], acc, count => some (acc, count, [])
  | c :: rest, acc, count =>
    match charToDigit radix c with
    | none => some (acc, count, c :: rest)
    | some d =>
      let acc' := acc * radix + d
      if maxVal < acc' then none
      else
        match maxDigits with
        | some m =>
          if m < count + 1 then none
          else readDigits radix maxVal maxDigits rest acc' (count + 1)
        | none => readDigits radix maxVal maxDigits rest acc' (count + 1)

/-- Rust `Parser::read_number(radix, max_digits, allow_zero_prefix)` at integer
type with maximum value `maxVal`. -/
def readNumber (radix maxVal : Nat) (maxDigits : Option Nat)
    (allowZeroPrefix : Bool) (s : List Char) : Option (Nat × List Char) :=
  let hasLeadingZero : Bool :=
    match s with
    | c :: _ => c = '0'
    | [] => false
  match readDigits radix maxVal maxDigits s 0 0 with
  | none => none
  | some (acc, count, rest) =>
    if count = 0 then none
    else if !allowZeroPrefix && hasLeadingZero && decide (1 < count) then none
    else some (acc, rest)

/-- Rust `Parser::read_separator(sep, index, inner)`: at index `0` just runs
`inner`; at later indices requires the separator character first. -/
def readSeparator {α : Type} (sep : Char) (i : Nat)
    (inner : List Char → Option (α × List Char)) (s : List Char) :
    Option (α × List Char) :=
  if i = 0 then inner s
  else
    match readGivenChar sep s with
    | none => none
    | some (_, s') => inner s'

/-- Rust `Parser::read_ipv4_addr`: four decimal octets (`u8`, at most three
digits, no leading zeros) separated by dots. -/
def readIpv4Addr (s : List Char) : Option (Ipv4Addr × List Char) :=
  match readSeparator '.' 0 (readNumber 10 255 (some 3) false) s with
  | none => none
  | some (a, s) =>
  match readSeparator '.' 1 (readNumber 10 255 (some 3) false) s with
  | none => none
  | some (b, s) =>
  match readSeparator '.' 2 (readNumber 10 255 (some 3) false) s with
  | none => none
  | some (c, s) =>
  match readSeparator '.' 3 (readNumber 10 255 (some 3) false) s with
  | none => none
  | some (d, s) => some (⟨a, b, c, d⟩, s)

/-- The loop of Rust's `read_ipv6_addr::read_groups` writing into a slice of
length `i + remaining`: `remaining` slots are still free, `i` is the index of
the current slot (separators are required from index `1` on).  Returns the
groups read, whether a trailing embedded IPv4 address was used, and the rest
of the input. -/
def readGroups : Nat → Nat → List Nat → List Char → List Nat × Bool × List Char
  | 0, _, acc, s => (acc, false, s)
  | remaining + 1, i, acc, s =>
    let ipv4Attempt : Option (Ipv4Addr × List Char) :=
      if 1 ≤ remaining then readSeparator ':' i readIpv4Addr s else none
    match ipv4Attempt with
    | some (v4, s') =>
      (acc ++ [v4.a * 256 + v4.b, v4.c * 256 + v4.d], true, s')
    | none =>
      match readSeparator ':' i (readNumber 16 65535 (some 4) true) s with
      | some (g, s') => readGroups remaining (i + 1) (acc ++ [g]) s'
      | none => (acc, false, s)

/-- Assemble eight 16-bit groups into an `Ipv6Addr` (missing entries are 0,
matching the zero-initialised `head` array in Rust). -/
def ipv6OfGroups (l : List Nat) : Ipv6Addr :=
  ⟨l.getD 0 0, l.getD 1 0, l.getD 2 0, l.getD 3 0,
   l.getD 4 0, l.getD 5 0, l.getD 6 0, l.getD 7 0⟩

/-- Rust `Parser::read_ipv6_addr`: up to eight hex groups, an optional `::`
abbreviation, and an optional trailing embedded IPv4 address. -/
def readIpv6Addr (s : List Char) : Option (Ipv6Addr × List Char) :=
  let (head, headIpv4, s1) := readGroups 8 0 [] s
  if head.length = 8 then some (ipv6OfGroups head, s1)
  else if headIpv4 then none
  else
    match readGivenChar ':' s1 with
    | none => none
    | some (_, s2) =>
    match readGivenChar ':' s2 with
    | none => none
    | some (_, s3) =>
      let limit := 8 - (head.length + 1)
      let (tail, _, s4) := readGroups limit 0 [] s3
      some (ipv6OfGroups
        (head ++ List.replicate (8 - head.length - tail.length) 0 ++ tail), s4)

/-- Rust `Parser::read_ip_addr`: IPv4 first, IPv6 second. -/
def readIpAddr (s : List Char) : Option (IpAddr × List Char) :=
  match readIpv4Addr s with
  | some (ip, rest) => some (IpAddr.V4 ip, rest)
  | none =>
    match readIpv6Addr s with
    | some (ip, rest) => some (IpAddr.V6 ip, rest)
    | none => none

/-- Rust `Parser::read_port`: `:` followed by a decimal `u16` (any number of
digits, leading zeros allowed, checked against 65535). -/
def readPort (s : List Char) : Option (Nat × List Char) :=
  match readGivenChar ':' s with
  | none => none
  | some (_, s') => readNumber 10 65535 none true s'

/-- Rust `Parser::read_scope_id`: `%` followed by a decimal `u32`. -/
def readScopeId (s : List Char) : Option (Nat × List Char) :=
  match readGivenChar '%' s with
  | none => none
  | some (_, s') => readNumber 10 4294967295 none true s'

/-- Rust `Parser::read_socket_addr_v4`: `IPv4:PORT`. -/
def readSocketAddrV4 (s : List Char) : Option (SocketAddrV4 × List Char) :=
  match readIpv4Addr s with
  | none => none
  | some (ip, s') =>
    match readPort s' with
    | none => none
    | some (port, s'') => some (⟨ip, port⟩, s'')

/-- Rust `Parser::read_socket_addr_v6`: `[IPv6]:PORT` with an optional
`%scope_id` inside the brackets. -/
def readSocketAddrV6 (s : List Char) : Option (SocketAddrV6 × List Char) :=
  match readGivenChar '[' s with
  | none => none
  | some (_, s1) =>
  match readIpv6Addr s1 with
  | none => none
  | some (ip, s2) =>
    let scopeRes : Option Nat × List Char :=
      match readScopeId s2 with
      | some (v, s') => (some v, s')
      | none => (none, s2)
    match readGivenChar ']' scopeRes.2 with
    | none => none
    | some (_, s3) =>
      match readPort s3 with
      | none => none
      | some (port, s4) => some (⟨ip, port, 0, scopeRes.1.getD 0⟩, s4)

/-- Rust `Parser::read_socket_addr`: V4 form first, bracketed V6 form second. -/
def readSocketAddr (s : List Char) : Option (SocketAddr × List Char) :=
  match readSocketAddrV4 s with
  | some (sa, rest) => some (SocketAddr.V4 sa, rest)
  | none =>
    match readSocketAddrV6 s with
    | some (sa, rest) => some (SocketAddr.V6 sa, rest)
    | none => none

/-- Rust `Parser::parse_with`: run a reader and demand the whole input is
consumed; `none` is the `AddrParseError` case. -/
def parseWith {α : Type} (reader : List Char → Option (α × List Char))
    (s : String) : Option α :=
  match reader s.data with
  | some (v, []) => some v
  | _ => none

/-- Rust `IpAddr::from_str`. -/
def parseIpAddr (s : String) : Option IpAddr :=
  parseWith readIpAddr s

/-- Rust `SocketAddr::from_str`. -/
def parseSocketAddr (s : String) : Option SocketAddr :=
  parseWith readSocketAddr s

/-!
## `blacklist.rs` itself
-/

/-- `blacklist.rs`: `enum PatternAddr { Ip(Ipv6Addr), IpPort(SocketAddrV6) }`. -/
inductive PatternAddr where
  | Ip (ip : Ipv6Addr)
  | IpPort (addr : SocketAddrV6)
deriving DecidableEq, Repr

/-- `blacklist.rs`: `impl FromStr for PatternAddr`.  `none` models the
`AddrParseError` result. -/
def PatternAddr.from_str (s : String) : Option PatternAddr :=
  match parseIpAddr s with
  | some ipAddr =>
    let ip_addr_v6 : Ipv6Addr :=
      match ipAddr with
      | IpAddr.V4 ip => ip.to_ipv6_mapped
      | IpAddr.V6 ip => ip
    some (PatternAddr.Ip ip_addr_v6)
  | none =>
    match parseSocketAddr s with
    | none => none
    | some (SocketAddr.V4 socket_addr) =>
      some (PatternAddr.IpPort ⟨socket_addr.ip.to_ipv6_mapped, socket_addr.port, 0, 0⟩)
    | some (SocketAddr.V6 socket_addr) =>
      some (PatternAddr.IpPort socket_addr)

/-- `blacklist.rs`: `enum PortsSet { All, Some(HashSet<u16>) }`; the hash set
is modelled as a list without duplicate insertion. -/
inductive PortsSet where
  | All
  | Some (ports : List Nat)
deriving DecidableEq, Repr

/-- `blacklist.rs`: `PortsSet::new(port)`. -/
def PortsSet.new (port : Nat) : PortsSet :=
  PortsSet.Some [port]

/-- `blacklist.rs`: `PortsSet::add_all` — `*self = Self::All`. -/
def PortsSet.add_all (_ : PortsSet) : PortsSet :=
  PortsSet.All

/-- `blacklist.rs`: `PortsSet::add_port` — inserts into the set in the `Some`
case, does nothing in the `All` case. -/
def PortsSet.add_port (s : PortsSet) (port : Nat) : PortsSet :=
  match s with
  | PortsSet.All => PortsSet.All
  | PortsSet.Some ports =>
    PortsSet.Some (if port ∈ ports then ports else ports ++ [port])

/-- `blacklist.rs`: `PortsSet::contains`. -/
def PortsSet.contains (s : PortsSet) (port : Nat) : Bool :=
  match s with
  | PortsSet.All => true
  | PortsSet.Some ports => decide (port ∈ ports)

/-- `blacklist.rs`: `struct Blacklist(HashMap<Ipv6Addr, PortsSet>)`, modelled
as an association list with at most one entry per key. -/
def Table : Type := List (Ipv6Addr × PortsSet)

/-- `HashMap::get`. -/
def mapGet (m : Table) (k : Ipv6Addr) : Option PortsSet :=
  match m with
  | [] => none
  | (k', v) :: rest => if k' = k then some v else mapGet rest k

/-- `HashMap::entry(k).and_modify(f).or_insert(d)`: modify the entry for `k`
in place if present, otherwise append `(k, d)`. -/
def mapUpsert (m : Table) (k : Ipv6Addr) (f : PortsSet → PortsSet)
    (d : PortsSet) : Table :=
  match m with
  | [] => [(k, d)]
  | (k', v) :: rest =>
    if k' = k then (k', f v) :: rest else (k', v) :: mapUpsert rest k f d

/-- The merge step of `Blacklist::add` after a successful parse. -/
def addPattern (m : Table) (pat : PatternAddr) : Table :=
  match pat with
  | PatternAddr.Ip ip =>
    mapUpsert m ip (fun ports => ports.add_all) PortsSet.All
  | PatternAddr.IpPort addr =>
    mapUpsert m addr.ip (fun ports => ports.add_port addr.port)
      (PortsSet.new addr.port)

/-- `blacklist.rs`: `Blacklist::add`; `none` models the `Err` return, in which
case the map is unchanged. -/
def add (m : Table) (addr : String) : Option Table :=
  match PatternAddr.from_str addr with
  | none => none
  | some pat => some (addPattern m pat)

/-- The loop body of `Blacklist::from_iter`: on a parse error the entry is
ignored (the warning is only a log line). -/
def addOrSkip (m : Table) (addr : String) : Table :=
  match add m addr with
  | none => m
  | some m' => m'

/-- `blacklist.rs`: `Blacklist::from_iter`, starting from the empty map. -/
def from_iter (l : List String) : Table :=
  l.foldl addOrSkip []

/-- `blacklist.rs`: `Blacklist::contains`. -/
def contains (m : Table) (addr : SocketAddr) : Bool :=
  let ip : Ipv6Addr :=
    match addr.ip with
    | IpAddr.V4 ip => ip.to_ipv6_mapped
    | IpAddr.V6 ip => ip
  match mapGet m ip with
  | none => false
  | some ports => ports.contains addr.port

/-!
## Specification-side definitions

These follow the wording of the specification; theorems below relate them to
the code-derived definitions above.
-/

/-- The canonicalization of §4.2 of the spec: IPv4 is embedded via the
IPv4-mapped-IPv6 form, IPv6 is used as-is. -/
def canonIp : IpAddr → Ipv6Addr
  | IpAddr.V4 ip => ip.to_ipv6_mapped
  | IpAddr.V6 ip => ip

/-- `containsSpec`, following the spec's words for §4.5/§4.1: canonicalize the
endpoint's address, look it up, return false if absent, otherwise true
unconditionally for `All` and membership for an explicit set. -/
def containsSpec (m : Table) (ep : SocketAddr) : Bool :=
  match mapGet m (canonIp ep.ip) with
  | none => false
  | some PortsSet.All => true
  | some (PortsSet.Some ports) => decide (ep.port ∈ ports)

/-- Denotation of a single parsed pattern as a predicate on endpoints. -/
def patMatches (pat : PatternAddr) (ep : SocketAddr) : Bool :=
  match pat with
  | PatternAddr.Ip k => decide (canonIp ep.ip = k)
  | PatternAddr.IpPort sa =>
    decide (canonIp ep.ip = sa.ip) && decide (ep.port = sa.port)

/-- Denotation of a single pattern string: unparseable strings match
nothing. -/
def strMatches (s : String) (ep : SocketAddr) : Bool :=
  match PatternAddr.from_str s with
  | none => false
  | some pat => patMatches pat ep

/-- Canonicalization of a parsed socket address, as `PatternAddr::from_str`
performs it on its `SocketAddr` branch: the V4 form is rebuilt with
`SocketAddrV6::new(mapped_ip, port, 0, 0)`, the V6 form is kept. -/
def canonSocket : SocketAddr → SocketAddrV6
  | SocketAddr.V4 sa => ⟨sa.ip.to_ipv6_mapped, sa.port, 0, 0⟩
  | SocketAddr.V6 sa => sa

/-- An abstract mutation of a `PortsSet`: one of the two mutating calls the
code can make. -/
inductive PortOp where
  | addAll
  | addPort (p : Nat)

/-- Apply one mutation. -/
def applyPortOp (s : PortsSet) : PortOp → PortsSet
  | PortOp.addAll => s.add_all
  | PortOp.addPort p => s.add_port p

/-!
## Helper lemmas
-/

/-- `List.any` is invariant under permutations. -/
theorem any_of_perm {α : Type} {l1 l2 : List α} (h : l1.Perm l2) (f : α → Bool) :
    l1.any f = l2.any f := by
  induction h with
  | nil => rfl
  | cons x _ ih => simp [List.any_cons, ih]
  | swap x y l => simp [List.any_cons, Bool.or_left_comm]
  | trans _ _ ih1 ih2 => rw [ih1, ih2]

/-- `contains` written through `canonIp`. -/
theorem contains_canon (m : Table) (ep : SocketAddr) :
    contains m ep =
      match mapGet m (canonIp ep.ip) with
      | none => false
      | some ports => ports.contains ep.port := by
  cases ep <;> rfl

/-- The empty map denies nothing. -/
theorem contains_nil (ep : SocketAddr) : contains ([] : Table) ep = false := by
  cases ep <;> rfl

/-- Lookup after upsert: the updated key sees the modified (or default) value,
every other key is untouched. -/
theorem mapGet_mapUpsert (m : Table) (k k' : Ipv6Addr) (f : PortsSet → PortsSet)
    (d : PortsSet) :
    mapGet (mapUpsert m k f d) k' =
      if k' = k then
        match mapGet m k with
        | none => some d
        | some v => some (f v)
      else mapGet m k' := by
  induction m with
  | nil =>
    by_cases h : k' = k
    · subst h; simp [mapUpsert, mapGet]
    · simp [mapUpsert, mapGet, h, Ne.symm h]
  | cons hd tl ih =>
    obtain ⟨k1, v1⟩ := hd
    by_cases h1 : k1 = k
    · subst h1
      by_cases h : k' = k1
      · subst h; simp [mapUpsert, mapGet]
      · simp [mapUpsert, mapGet, h, Ne.symm h]
    · by_cases h : k' = k1
      · subst h
        simp [mapUpsert, mapGet, h1, Ne.symm h1, ih]
      · simp [mapUpsert, mapGet, h1, Ne.symm h, ih]

/-- `add_all` makes every port contained. -/
theorem PortsSet.contains_add_all (v : PortsSet) (p : Nat) :
    (v.add_all).contains p = true := rfl

/-- `add_port` adds exactly the given port to the contained set. -/
theorem PortsSet.contains_add_port (v : PortsSet) (p q : Nat) :
    (v.add_port q).contains p = (v.contains p || decide (p = q)) := by
  cases v with
  | All => simp [add_port, contains]
  | Some ports =>
    simp only [add_port, contains]
    by_cases hq : q ∈ ports
    · rw [if_pos hq]
      by_cases hpq : p = q
      · subst hpq; simp [hq]
      · simp [hpq]
    · rw [if_neg hq]
      simp [List.mem_append]

/-- `new q` contains exactly `q`. -/
theorem PortsSet.contains_new (p q : Nat) :
    (PortsSet.new q).contains p = decide (p = q) := by
  simp [new, contains]

/-- Merging one parsed pattern extends the denied set by exactly the
endpoints matching that pattern. -/
theorem contains_addPattern (m : Table) (pat : PatternAddr) (ep : SocketAddr) :
    contains (addPattern m pat) ep = (contains m ep || patMatches pat ep) := by
  rw [contains_canon, contains_canon]
  cases pat with
  | Ip k =>
    simp only [addPattern, patMatches]
    rw [mapGet_mapUpsert]
    by_cases h : canonIp ep.ip = k
    · rw [if_pos h, h, decide_eq_true_eq.mpr rfl]
      cases mapGet m k with
      | none => simp [PortsSet.contains]
      | some v => simp [PortsSet.add_all, PortsSet.contains]
    · rw [if_neg h]
      simp [h]
  | IpPort sa =>
    simp only [addPattern, patMatches]
    rw [mapGet_mapUpsert]
    by_cases h : canonIp ep.ip = sa.ip
    · rw [if_pos h, h, decide_eq_true_eq.mpr rfl]
      cases mapGet m sa.ip with
      | none => simp [PortsSet.contains_new]
      | some v => simp [PortsSet.contains_add_port]
    · rw [if_neg h]
      simp [h]

/-- One loop iteration of `from_iter` extends the denied set by exactly the
endpoints matching that string. -/
theorem contains_addOrSkip (m : Table) (s : String) (ep : SocketAddr) :
    contains (addOrSkip m s) ep = (contains m ep || strMatches s ep) := by
  unfold addOrSkip add strMatches
  cases h : PatternAddr.from_str s with
  | none => simp
  | some pat => simp [contains_addPattern]

/-- The fold of `from_iter` over any starting map. -/
theorem contains_foldl (l : List String) (m : Table) (ep : SocketAddr) :
    contains (l.foldl addOrSkip m) ep
      = (contains m ep || l.any (fun s => strMatches s ep)) := by
  induction l generalizing m with
  | nil => simp
  | cons s l ih =>
    simp only [List.foldl_cons, List.any_cons]
    rw [ih, contains_addOrSkip, Bool.or_assoc]

/-- Semantics of a built filter: an endpoint is denied iff some pattern
string of the construction list matches it. -/
theorem contains_from_iter (l : List String) (ep : SocketAddr) :
    contains (from_iter l) ep = l.any (fun s => strMatches s ep) := by
  rw [from_iter, contains_foldl, contains_nil, Bool.false_or]

/-!
## Claim theorems
-/

/-- C1: a filter built from the single bare-IP pattern string for an IPv4
address `ip` denies `(ip, p)` for every port `p`, and also denies the
IPv4-mapped IPv6 presentation of `ip` at every port (with any flowinfo and
scope_id): canonicalization at both insertion and query makes the two
presentations indistinguishable. -/
theorem bare_ipv4_rule_denies_both_presentations (s : String) (ip : Ipv4Addr)
    (p fl sc : Nat) (h : parseIpAddr s = some (IpAddr.V4 ip)) :
    contains (from_iter [s]) (SocketAddr.V4 ⟨ip, p⟩) = true ∧
    contains (from_iter [s])
      (SocketAddr.V6 ⟨ip.to_ipv6_mapped, p, fl, sc⟩) = true := by
  have hpat : PatternAddr.from_str s = some (PatternAddr.Ip ip.to_ipv6_mapped) := by
    simp [PatternAddr.from_str, h]
  constructor <;>
  · rw [contains_from_iter]
    simp [strMatches, hpat, patMatches, canonIp, SocketAddr.ip]

/-- Witness for C1 at `s = "127.0.0.1"`, `ip = 127.0.0.1`, `p = 42`. -/
theorem bare_ipv4_rule_denies_both_presentations_witness :
    contains (from_iter ["127.0.0.1"])
      (SocketAddr.V4 ⟨⟨127, 0, 0, 1⟩, 42⟩) = true ∧
    contains (from_iter ["127.0.0.1"])
      (SocketAddr.V6 ⟨⟨0, 0, 0, 0, 0, 65535, 32512, 1⟩, 42, 0, 0⟩) = true :=
  bare_ipv4_rule_denies_both_presentations "127.0.0.1" ⟨127, 0, 0, 1⟩ 42 0 0 rfl

/-- C2: `contains` canonicalizes the query address, looks the canonical
address up, returns false when absent and otherwise returns exactly the
stored `PortsSet.contains`, which is true unconditionally for `All` and
membership for an explicit set. -/
theorem contains_canonicalize_lookup_delegate (m : Table) (ep : SocketAddr) :
    contains m ep = containsSpec m ep ∧
    (∀ p, PortsSet.All.contains p = true) ∧
    (∀ ports p, (PortsSet.Some ports).contains p = decide (p ∈ ports)) := by
  refine ⟨?_, fun p => rfl, fun ports p => rfl⟩
  rw [contains_canon]
  unfold containsSpec
  cases mapGet m (canonIp ep.ip) with
  | none => rfl
  | some ports => cases ports <;> rfl

/-- C3: construction is order-insensitive (any permutation of the pattern
list yields the same `contains` behaviour) and idempotent per entry (a
duplicated pattern changes nothing). -/
theorem construction_commutative_idempotent (l1 l2 : List String) (s : String)
    (hperm : l1.Perm l2) (hmem : s ∈ l1) (ep : SocketAddr) :
    contains (from_iter l1) ep = contains (from_iter l2) ep ∧
    contains (from_iter (s :: l1)) ep = contains (from_iter l1) ep := by
  constructor
  · rw [contains_from_iter, contains_from_iter]
    exact any_of_perm hperm _
  · rw [contains_from_iter, contains_from_iter, List.any_cons]
    cases hs : strMatches s ep with
    | false => simp
    | true =>
      have hany : l1.any (fun x => strMatches x ep) = true :=
        List.any_eq_true.mpr ⟨s, hmem, hs⟩
      simp [hany]

/-- Witness for C3: `["127.0.0.1", "[::1]:42"]` permuted, with `"127.0.0.1"`
duplicated, at the endpoint `127.0.0.1:42`. -/
theorem construction_commutative_idempotent_witness :
    contains (from_iter ["127.0.0.1", "[::1]:42"])
        (SocketAddr.V4 ⟨⟨127, 0, 0, 1⟩, 42⟩)
      = contains (from_iter ["[::1]:42", "127.0.0.1"])
        (SocketAddr.V4 ⟨⟨127, 0, 0, 1⟩, 42⟩) ∧
    contains (from_iter ["127.0.0.1", "127.0.0.1", "[::1]:42"])
        (SocketAddr.V4 ⟨⟨127, 0, 0, 1⟩, 42⟩)
      = contains (from_iter ["127.0.0.1", "[::1]:42"])
        (SocketAddr.V4 ⟨⟨127, 0, 0, 1⟩, 42⟩) :=
  construction_commutative_idempotent ["127.0.0.1", "[::1]:42"]
    ["[::1]:42", "127.0.0.1"] "127.0.0.1"
    (List.Perm.swap "[::1]:42" "127.0.0.1" [])
    (List.mem_cons_self "127.0.0.1" ["[::1]:42"])
    (SocketAddr.V4 ⟨⟨127, 0, 0, 1⟩, 42⟩)

/-- C4: `All` is absorbing: no sequence of `add_all`/`add_port` operations
leaves the `All` state, `add_port` on `All` is a no-op, and `add_all`
followed by `add_port x` still denies every port. -/
theorem ports_all_absorbing (ops : List PortOp) (x p : Nat) (v : PortsSet) :
    ops.foldl applyPortOp PortsSet.All = PortsSet.All ∧
    PortsSet.All.add_port x = PortsSet.All ∧
    ((v.add_all).add_port x).contains p = true := by
  refine ⟨?_, rfl, rfl⟩
  induction ops with
  | nil => rfl
  | cons op ops ih =>
    cases op <;> simpa [applyPortOp, PortsSet.add_all, PortsSet.add_port] using ih

/-- C5: construction is total and degrades gracefully: an unparseable entry
is skipped, so the built map is literally the one built without it, and a
list of only unparseable entries yields a filter denying nothing. -/
theorem construction_total_skips_invalid (l1 l2 : List String) (bad : String)
    (hbad : PatternAddr.from_str bad = none) (l : List String)
    (hall : ∀ s ∈ l, PatternAddr.from_str s = none) (ep : SocketAddr) :
    from_iter (l1 ++ bad :: l2) = from_iter (l1 ++ l2) ∧
    contains (from_iter l) ep = false := by
  constructor
  · rw [from_iter, from_iter, List.foldl_append, List.foldl_append,
      List.foldl_cons]
    have hskip : addOrSkip (l1.foldl addOrSkip []) bad = l1.foldl addOrSkip [] := by
      simp [addOrSkip, add, hbad]
    rw [hskip]
  · rw [contains_from_iter]
    rw [List.any_eq_false]
    intro x hx
    simp [strMatches, hall x hx]

/-- Witness for C5: the invalid entries `"192.0.2.0/24"` and `"foo"`. -/
theorem construction_total_skips_invalid_witness :
    from_iter ["127.0.0.1", "192.0.2.0/24"] = from_iter ["127.0.0.1"] ∧
    contains (from_iter ["foo"]) (SocketAddr.V4 ⟨⟨1, 2, 3, 4⟩, 5⟩) = false := by
  have h := construction_total_skips_invalid ["127.0.0.1"] [] "192.0.2.0/24"
    rfl ["foo"] (by intro s hs; simp at hs; subst hs; rfl)
    (SocketAddr.V4 ⟨⟨1, 2, 3, 4⟩, 5⟩)
  exact h

/-- C6: pattern parsing tries the grammar in order — a string that parses as
a bare IP yields `Ip` of its canonical form; otherwise a string that parses
as a socket address yields `IpPort` with the canonicalized IP; otherwise
parsing fails; and wildcards, CIDR notation, malformed octets and
out-of-range ports are all rejected. -/
theorem pattern_grammar_in_order (s : String) :
    (∀ ip, parseIpAddr s = some ip →
      PatternAddr.from_str s = some (PatternAddr.Ip (canonIp ip))) ∧
    (parseIpAddr s = none → ∀ sa, parseSocketAddr s = some sa →
      PatternAddr.from_str s = some (PatternAddr.IpPort (canonSocket sa))) ∧
    (parseIpAddr s = none → parseSocketAddr s = none →
      PatternAddr.from_str s = none) ∧
    PatternAddr.from_str "192.0.2.*" = none ∧
    PatternAddr.from_str "192.0.2.0/24" = none ∧
    PatternAddr.from_str "192.0.2.4.5" = none ∧
    PatternAddr.from_str "192.0.2.4:424242" = none := by
  refine ⟨?_, ?_, ?_, rfl, rfl, rfl, rfl⟩
  · intro ip h
    cases ip <;> simp [PatternAddr.from_str, h, canonIp]
  · intro h1 sa h2
    cases sa <;> simp [PatternAddr.from_str, h1, h2, canonSocket]
  · intro h1 h2
    simp [PatternAddr.from_str, h1, h2]

/-- Witness for C6 at `s = "::1"` (first grammar rule) and the concrete
rejected strings. -/
theorem pattern_grammar_in_order_witness :
    PatternAddr.from_str "::1"
      = some (PatternAddr.Ip ⟨0, 0, 0, 0, 0, 0, 0, 1⟩) :=
  (pattern_grammar_in_order "::1").1 (IpAddr.V6 ⟨0, 0, 0, 0, 0, 0, 0, 1⟩) rfl

/-- C7: a single-port rule denies exactly that port: for any endpoint whose
canonical address equals the rule's address, the filter built from the one
`IP:PORT` pattern denies it iff its port equals the rule's port. -/
theorem single_port_rule_denies_exactly (s : String) (sa : SocketAddrV6)
    (h : PatternAddr.from_str s = some (PatternAddr.IpPort sa))
    (ep : SocketAddr) (hip : canonIp ep.ip = sa.ip) :
    (contains (from_iter [s]) ep = true ↔ ep.port = sa.port) := by
  rw [contains_from_iter]
  simp [strMatches, h, patMatches, hip]

/-- Witness for C7 at `s = "192.0.2.4:42"`, endpoint `192.0.2.4:42`. -/
theorem single_port_rule_denies_exactly_witness :
    contains (from_iter ["192.0.2.4:42"])
      (SocketAddr.V4 ⟨⟨192, 0, 2, 4⟩, 42⟩) = true :=
  (single_port_rule_denies_exactly "192.0.2.4:42"
    ⟨⟨0, 0, 0, 0, 0, 65535, 49152, 516⟩, 42, 0, 0⟩ rfl
    (SocketAddr.V4 ⟨⟨192, 0, 2, 4⟩, 42⟩) rfl).mpr rfl

/-- C8: the unbracketed string `"::1:42"` parses as the bare-IP variant for
the distinct address `::1:42` (it is itself a valid IPv6 address), so it
silently becomes an all-ports rule on `0:0:0:0:0:0:1:42` — not a port-42
rule on `::1` and not a parse error. -/
theorem unbracketed_ipv6_with_port_is_bare_ip :
    PatternAddr.from_str "::1:42"
      = some (PatternAddr.Ip ⟨0, 0, 0, 0, 0, 0, 1, 66⟩) ∧
    (⟨0, 0, 0, 0, 0, 0, 1, 66⟩ : Ipv6Addr) ≠ ⟨0, 0, 0, 0, 0, 0, 0, 1⟩ ∧
    (∀ p fl sc, contains (from_iter ["::1:42"])
      (SocketAddr.V6 ⟨⟨0, 0, 0, 0, 0, 0, 1, 66⟩, p, fl, sc⟩) = true) ∧
    (∀ fl sc, contains (from_iter ["::1:42"])
      (SocketAddr.V6 ⟨⟨0, 0, 0, 0, 0, 0, 0, 1⟩, 42, fl, sc⟩) = false) :=
  ⟨rfl, by decide, fun p fl sc => rfl, fun fl sc => rfl⟩

/-- C9: port 0 is accepted: `"192.0.2.4:0"` parses as `IpPort` with port 0,
and the filter built from it denies exactly the endpoints whose canonical
address is `::ffff:192.0.2.4` and whose port is 0. -/
theorem port_zero_pattern_exact (ep : SocketAddr) :
    PatternAddr.from_str "192.0.2.4:0"
      = some (PatternAddr.IpPort ⟨⟨0, 0, 0, 0, 0, 65535, 49152, 516⟩, 0, 0, 0⟩) ∧
    (contains (from_iter ["192.0.2.4:0"]) ep = true ↔
      canonIp ep.ip = ⟨0, 0, 0, 0, 0, 65535, 49152, 516⟩ ∧ ep.port = 0) := by
  refine ⟨rfl, ?_⟩
  have h : PatternAddr.from_str "192.0.2.4:0"
      = some (PatternAddr.IpPort ⟨⟨0, 0, 0, 0, 0, 65535, 49152, 516⟩, 0, 0, 0⟩) := rfl
  rw [contains_from_iter]
  simp [strMatches, h, patMatches]

/-- C10: merging an `IpPort` pattern reads only the ip and port of the
parsed socket address: two parse results agreeing on ip and port but
differing in flowinfo or scope_id produce literally equal maps, hence
identical `contains` behaviour. -/
theorem merge_ignores_flowinfo_scope (m : Table) (sa1 sa2 : SocketAddrV6)
    (hip : sa1.ip = sa2.ip) (hport : sa1.port = sa2.port) :
    addPattern m (PatternAddr.IpPort sa1) = addPattern m (PatternAddr.IpPort sa2) ∧
    ∀ ep, contains (addPattern m (PatternAddr.IpPort sa1)) ep
        = contains (addPattern m (PatternAddr.IpPort sa2)) ep := by
  have h : addPattern m (PatternAddr.IpPort sa1)
      = addPattern m (PatternAddr.IpPort sa2) := by
    simp [addPattern, hip, hport]
  exact ⟨h, fun ep => by rw [h]⟩

/-- Witness for C10: flowinfo/scope_id 1,2 against 3,4 on `[::1]:5`. -/
theorem merge_ignores_flowinfo_scope_witness :
    addPattern [] (PatternAddr.IpPort ⟨⟨0, 0, 0, 0, 0, 0, 0, 1⟩, 5, 1, 2⟩)
      = addPattern [] (PatternAddr.IpPort ⟨⟨0, 0, 0, 0, 0, 0, 0, 1⟩, 5, 3, 4⟩) :=
  (merge_ignores_flowinfo_scope [] ⟨⟨0, 0, 0, 0, 0, 0, 0, 1⟩, 5, 1, 2⟩
    ⟨⟨0, 0, 0, 0, 0, 0, 0, 1⟩, 5, 3, 4⟩ rfl rfl).1

end Blacklist
